import Mathlib

/-!
# Verification of the AI-Scientist configuration wizard and launcher

Shallow embedding of `config_ai_scientist.py` (the Configuration Builder)
and `launch_ai_scientist.py` (the Launch Orchestrator), together with
theorems settling the spec claims.

Modelling conventions:
* Python strings are Lean `String`s; `str.strip()` is `pyStrip`,
  `str.isdigit()` is `pyIsdigit`, `int(x)` is `pyInt?` (returning `none`
  where Python raises `ValueError`).
* The denotation of `float(x)` for a prompt answer is carried as an
  `Option ℚ` (`none` where `float` raises `ValueError`); the raw string
  is kept alongside where the program stores it.
* JSON values reachable in the config are strings or booleans (`JsonVal`);
  a JSON object is an association list, absent keys model `KeyError`.
* Host facts (platform, which executables resolve on PATH, which files
  exist, whether `nvidia-smi` succeeds) are explicit parameters.
* `os.environ` mutations of the launcher are collected into an
  `EnvOverlay` record; fallible steps (`KeyError`, `ValueError`) make the
  whole derivation `none`, matching an uncaught Python exception.
-/

set_option autoImplicit false

/-- Python `str.strip()`: drop whitespace from both ends. -/
def pyStrip (s : String) : String :=
  ⟨((s.data.dropWhile Char.isWhitespace).reverse.dropWhile Char.isWhitespace).reverse⟩

/-- Python `str.isdigit()`: non-empty and every character a digit. -/
def pyIsdigit (s : String) : Bool :=
  s ≠ "" && s.data.all Char.isDigit

/-- The base-10 value of a digit list (the fold used by
`String.toNat?`). -/
def pyDigitsVal (l : List Char) : Nat :=
  l.foldl (fun n c => n * 10 + (c.toNat - '0'.toNat)) 0

/-- Decimal-string-to-`Nat` conversion: `some` exactly on non-empty
all-digit strings (as `String.toNat?`, but by structural recursion over
the character list). -/
def pyToNat? (s : String) : Option Nat :=
  if pyIsdigit s then some (pyDigitsVal s.data) else none

/-- Python `int(x)` on a string: optional surrounding whitespace, optional
sign, then digits; `none` models a raised `ValueError`. -/
def pyInt? (s : String) : Option Int :=
  match (pyStrip s).data with
  | [] => none
  | c :: rest =>
    if c = '-' then (pyToNat? ⟨rest⟩).map (fun n => -(n : Int))
    else if c = '+' then (pyToNat? ⟨rest⟩).map (fun n => (n : Int))
    else (pyToNat? (pyStrip s)).map (fun n => (n : Int))

/-- A JSON value reachable in the configuration record: the wizard stores
text answers as strings and `Confirm` answers as booleans. -/
inductive JsonVal where
  | str (s : String)
  | boolean (b : Bool)
deriving DecidableEq, Repr

/-- A JSON value assigned into `os.environ` or placed into a
`subprocess.run` argument list: Python accepts only strings there
(`none` models the `TypeError` raised otherwise). -/
def JsonVal.asEnvString : JsonVal → Option String
  | .str s => some s
  | .boolean _ => none

/-- Python `str()` / f-string formatting of a JSON value. -/
def JsonVal.pyStr : JsonVal → String
  | .str s => s
  | .boolean b => if b then "True" else "False"

/-- The `llm_provider` group of the record: a provider type tag and a
`settings` JSON object (association list; absent keys raise `KeyError`). -/
structure LLMProvider where
  provider_type : String
  settings : List (String × JsonVal)
deriving DecidableEq, Repr

/-- The `experiment` group of the record.  `num_ideas` and
`parallel_processes` are stored as the strings the user typed. -/
structure ExperimentConfig where
  experiment_type : String
  num_ideas : String
  parallel_processes : String
  improvement_enabled : Bool
deriving DecidableEq, Repr

/-- The `system` group of the record. -/
structure SystemConfig where
  temp_directory : String
  use_gpu : Bool
deriving DecidableEq, Repr

/-- The persisted Configuration Record: the three settings groups plus the
informational `platform` and `version` top-level keys. -/
structure Config where
  llm_provider : LLMProvider
  experiment : ExperimentConfig
  system : SystemConfig
  platform : String := ""
  version : String := "1.0"
deriving DecidableEq, Repr

namespace ConfigAI

/-! ## `config_ai_scientist.py` — the Configuration Builder -/

/-- `validate_api_key`: `bool(key and len(key.strip()) > 10)`. -/
def validate_api_key (key : String) : Bool :=
  key ≠ "" && decide ((pyStrip key).length > 10)

/-- Inline validator of the `api_base_url` prompt: `bool(x.strip())`. -/
def validate_api_base_url (x : String) : Bool :=
  pyStrip x ≠ ""

/-- Inline validator of the `model_name` prompt: `bool(x.strip())`. -/
def validate_model_name (x : String) : Bool :=
  pyStrip x ≠ ""

/-- Inline validator of the `max_tokens` prompt: `x.isdigit()`. -/
def validate_max_tokens (x : String) : Bool :=
  pyIsdigit x

/-- Inline validator of the `temperature` prompt:
`lambda _, x: 0 <= float(x) <= 1`.  The argument is the denotation of
`float(x)`; `.error ()` models the `ValueError` raised by `float` on a
non-numeric string, before the range check applies. -/
def validate_temperature (x : Option ℚ) : Except Unit Bool :=
  match x with
  | none => .error ()
  | some q => .ok (decide (0 ≤ q) && decide (q ≤ 1))

/-- Modelled from the spec: the outcome of one round of an interactive
prompt — the prompt library (an external dependency, not part of this
repository's sources) either accepts the answer or re-prompts. -/
inductive PromptStep where
  | accepted
  | reprompt
deriving DecidableEq, Repr

/-- Modelled from the spec: one round of the temperature prompt on an
input whose `float` denotation is `x`.  Per the spec, the prompt library
re-prompts when the validator returns false *or raises*; it never lets a
validator exception escape. -/
def temperature_prompt_step (x : Option ℚ) : PromptStep :=
  match validate_temperature x with
  | .ok true => .accepted
  | .ok false => .reprompt
  | .error _ => .reprompt

/-- `get_default_cuda_devices`, with the host abstracted: `iw` is
`platform.system() == "Windows"` and `nvidiaSmiOk` tells whether
`subprocess.check_output(['nvidia-smi'])` succeeds (rather than raising
`CalledProcessError`/`FileNotFoundError`). -/
def get_default_cuda_devices (iw : Bool) (nvidiaSmiOk : Bool) : String :=
  if iw then
    if nvidiaSmiOk then "0" else ""
  else "0"

/-- The answers collected by the Custom-provider prompts.  `temperature`
is the raw string stored in the record; `temperature_val` is the
denotation of `float(temperature)` (`none` iff `float` raises), the value
the validator examines. -/
structure CustomAnswers where
  api_base_url : String
  api_key : String
  model_name : String
  max_tokens : String
  supports_functions : Bool
  temperature : String
  temperature_val : Option ℚ

/-- The Custom-provider validation gate: a record leaves the prompt loop
only when every inline validator accepted its answer (a validator that
raises, like `float` on a non-numeric temperature, does not accept). -/
def custom_answers_valid (a : CustomAnswers) : Bool :=
  validate_api_base_url a.api_base_url &&
  validate_api_key a.api_key &&
  validate_model_name a.model_name &&
  validate_max_tokens a.max_tokens &&
  (match validate_temperature a.temperature_val with
   | .ok b => b
   | .error _ => false)

/-- The `settings` object assembled from accepted Custom-provider
answers (`provider_config.update(custom_answers)`). -/
def custom_settings (a : CustomAnswers) : List (String × JsonVal) :=
  [("api_base_url", .str a.api_base_url),
   ("api_key", .str a.api_key),
   ("model_name", .str a.model_name),
   ("max_tokens", .str a.max_tokens),
   ("supports_functions", .boolean a.supports_functions),
   ("temperature", .str a.temperature)]

/-- `configure_llm_provider`: `provider_config` starts out as the empty
dict and is filled only when the chosen provider type is
`'Custom Provider'`. -/
def configure_llm_provider (provider_type : String) (custom : CustomAnswers) :
    LLMProvider :=
  { provider_type := provider_type
    settings :=
      if provider_type = "Custom Provider" then custom_settings custom else [] }

/-- Outcome of a run of the Builder's `main` (as wrapped by the
`__main__` guard, which turns `KeyboardInterrupt` into `sys.exit(1)`). -/
inductive BuilderOutcome where
  | exitInterrupted
  | keptExisting
  | saved (config : Config)
deriving DecidableEq, Repr

/-- The process exit status of a Builder outcome. -/
def BuilderOutcome.exitCode : BuilderOutcome → Nat
  | .exitInterrupted => 1
  | .keptExisting => 0
  | .saved _ => 0

/-- The interactive answers a Builder run consumes, one `Option` per
prompting section: `none` models a `KeyboardInterrupt` raised while that
section was prompting. -/
structure BuilderInputs where
  use_existing : Option Bool
  llm_provider : Option LLMProvider
  experiment : Option ExperimentConfig
  system : Option SystemConfig

/-- The Builder's `main`, driven by `existing` (the parsed record at the
default path, `none` when absent), the host `platformName`, and the
interactive answers.  Returns the outcome together with the number of
configuration-file writes the run performed: `save_configuration` is the
only write and is reached only after every prompt section succeeded. -/
def builder_main (existing : Option Config) (platformName : String)
    (inp : BuilderInputs) : BuilderOutcome × Nat :=
  match existing with
  | some _ =>
    match inp.use_existing with
    | none => (.exitInterrupted, 0)
    | some true => (.keptExisting, 0)
    | some false => builder_collect platformName inp
  | none => builder_collect platformName inp
where
  /-- The prompt-and-save tail of `main`: collect the three groups in
  order, then `save_configuration`. -/
  builder_collect (platformName : String) (inp : BuilderInputs) :
      BuilderOutcome × Nat :=
    match inp.llm_provider with
    | none => (.exitInterrupted, 0)
    | some prov =>
      match inp.experiment with
      | none => (.exitInterrupted, 0)
      | some exp =>
        match inp.system with
        | none => (.exitInterrupted, 0)
        | some sys =>
          (.saved { llm_provider := prov, experiment := exp, system := sys,
                    platform := platformName, version := "1.0" }, 1)

/-- Whether the prompt sequence of a Builder run encounters an interrupt:
the first un-answered prompt section that the control flow actually
reaches. -/
def hitsInterrupt (existing : Option Config) (inp : BuilderInputs) : Bool :=
  match existing with
  | some _ =>
    match inp.use_existing with
    | none => true
    | some true => false
    | some false =>
        inp.llm_provider.isNone || inp.experiment.isNone || inp.system.isNone
  | none =>
      inp.llm_provider.isNone || inp.experiment.isNone || inp.system.isNone

end ConfigAI

namespace LaunchAI

/-! ## `launch_ai_scientist.py` — the Launch Orchestrator -/

/-- `CONFIG_PATH = os.path.join("config", "ai_scientist_config.json")`
(POSIX join). -/
def CONFIG_PATH : String := "config/ai_scientist_config.json"

/-- The host facts the launcher consults: the platform, which command
names `shutil.which` resolves, and the parsed configuration files that
exist on disk (path, parsed record). -/
structure World where
  isWindows : Bool
  onPath : List String
  files : List (String × Config)

/-- `shutil.which(cmd_name)` as a Boolean, with the launcher's
Windows `.exe` suffixing applied. -/
def resolves (w : World) (cmd : String) : Bool :=
  w.onPath.contains (if w.isWindows then cmd ++ ".exe" else cmd)

/-- `validate_environment`: walk `['python', 'git']` in order and return
the first command that does not resolve (the function `sys.exit(1)`s
there, printing its name); `none` when both resolve. -/
def validate_environment (w : World) : Option String :=
  if ¬ resolves w "python" then some "python"
  else if ¬ resolves w "git" then some "git"
  else none

/-- `load_configuration`: reads the fixed module-level `CONFIG_PATH` —
note that it takes no path argument.  `none` models the
`sys.exit(1)` taken when `os.path.exists(CONFIG_PATH)` is false. -/
def load_configuration (w : World) : Option Config :=
  w.files.lookup CONFIG_PATH

/-- The parsed command line of the launcher: `--config` (defaulting to
`CONFIG_PATH`) and `--debug`. -/
structure Args where
  config : String := CONFIG_PATH
  debug : Bool := false

/-- The environment variables `setup_environment` exports for the child
process (`none` fields are left unset). -/
structure EnvOverlay where
  custom_api_key : Option String
  custom_api_base_url : Option String
  temp : Option String
  tmp : Option String
  cuda_visible_devices : Option String
deriving DecidableEq, Repr

/-- `','.join(str(i) for i in range(n))`. -/
def cudaDeviceList (n : Nat) : String :=
  String.intercalate "," ((List.range n).map toString)

/-- The Custom-provider branch of `setup_environment`: read and export
`settings['api_key']` and `settings['api_base_url']` (outer `none` models
the `KeyError`/`TypeError` raised there); non-Custom providers export
nothing (`some none`). -/
def customEnv (config : Config) : Option (Option (String × String)) :=
  if config.llm_provider.provider_type = "Custom Provider" then
    (config.llm_provider.settings.lookup "api_key").bind fun k =>
      k.asEnvString.bind fun ks =>
        (config.llm_provider.settings.lookup "api_base_url").bind fun u =>
          u.asEnvString.bind fun us => some (some (ks, us))
  else some none

/-- `setup_environment`: derive the environment overlay from the record.
`none` models an uncaught exception: a `KeyError` reading
`settings['api_key']`/`settings['api_base_url']` for a Custom-provider
record, a `TypeError` assigning a non-string into `os.environ`, or the
`ValueError` of `int(parallel_processes)`. -/
def setup_environment (iw : Bool) (config : Config) : Option EnvOverlay :=
  (customEnv config).bind fun custom =>
    (pyInt? config.experiment.parallel_processes).bind fun n =>
      some
        { custom_api_key := custom.map Prod.fst
          custom_api_base_url := custom.map Prod.snd
          temp := some config.system.temp_directory
          tmp := if iw then some config.system.temp_directory else none
          cuda_visible_devices :=
            if 0 < n ∧ config.system.use_gpu then
              some (cudaDeviceList n.toNat)
            else none }

/-- `build_launch_command`: assemble the downstream argument list.
`none` models an uncaught exception on the record: the `KeyError` of
`settings['model_name']` when the key is absent, or (non-Custom branch)
a non-string `model_name` placed raw into the argument list, which
`subprocess.run` rejects with `TypeError`.  In the Custom branch the
f-string `f"custom/{...}"` formats any value. -/
def build_launch_command (config : Config) : Option (List String) := do
  let mv ← config.llm_provider.settings.lookup "model_name"
  let model ←
    if config.llm_provider.provider_type = "Custom Provider" then
      pure ("custom/" ++ mv.pyStr)
    else mv.asEnvString
  let cmd :=
    ["python", "launch_scientist.py",
     "--model", model,
     "--experiment", config.experiment.experiment_type,
     "--num-ideas", config.experiment.num_ideas,
     "--parallel", config.experiment.parallel_processes]
  pure (if config.experiment.improvement_enabled then cmd ++ ["--improvement"]
        else cmd)

/-- The observable steps of a launcher run, in the order they occur. -/
inductive Event where
  | checkedPrereqs
  | loadedConfig
  | setEnvVars
  | ranSubprocess
deriving DecidableEq, Repr

/-- How a launcher run ends: an early `sys.exit(1)` (missing executable
or missing record), an uncaught exception while deriving the environment
or the command (`crashed`), or the single subprocess launch. -/
inductive Outcome where
  | exitMissingCmd (cmd : String)
  | exitConfigMissing
  | crashed
  | launched (cmd : List String) (env : EnvOverlay) (debugPrinted : Bool)
deriving DecidableEq, Repr

/-- Whether the run reached `subprocess.run`. -/
def Outcome.invokesSubprocess : Outcome → Bool
  | .launched _ _ _ => true
  | _ => false

/-- Whether the run terminated with a non-zero status before any launch
(an explicit `sys.exit(1)` or an uncaught exception). -/
def Outcome.exitedNonZeroBeforeLaunch : Outcome → Bool
  | .launched _ _ _ => false
  | _ => true

/-- The diagnostic the run prints on an early exit. -/
def Outcome.errorMessage : Outcome → Option String
  | .exitMissingCmd c => some ("Error: " ++ c ++ " not found in PATH")
  | .exitConfigMissing =>
      some "Configuration not found. Please run config_ai_scientist.py first."
  | _ => none

/-- The launcher's `main`: parse arguments, validate prerequisites, load
the record, derive the environment, build the command, launch.  Returns
the outcome together with the trace of steps performed.  As in the
source, `load_configuration` never receives `args.config`: the parsed
override is ignored and the fixed `CONFIG_PATH` is used. -/
def main (w : World) (args : Args) : Outcome × List Event :=
  match validate_environment w with
  | some c => (.exitMissingCmd c, [.checkedPrereqs])
  | none =>
    match load_configuration w with
    | none => (.exitConfigMissing, [.checkedPrereqs])
    | some config =>
      match setup_environment w.isWindows config with
      | none => (.crashed, [.checkedPrereqs, .loadedConfig])
      | some env =>
        match build_launch_command config with
        | none => (.crashed, [.checkedPrereqs, .loadedConfig, .setEnvVars])
        | some cmd =>
          (.launched cmd env args.debug,
           [.checkedPrereqs, .loadedConfig, .setEnvVars, .ranSubprocess])

end LaunchAI

/-! ## Concrete hosts, records and answer sets used by the theorems -/

open ConfigAI LaunchAI

/-- The spec's nanoGPT example record (non-Custom provider). -/
def cfgNano : Config :=
  { llm_provider := { provider_type := "OpenAI Compatible",
                      settings := [("model_name", .str "nanoGPT")] }
    experiment := { experiment_type := "nanoGPT", num_ideas := "50",
                    parallel_processes := "0", improvement_enabled := true }
    system := { temp_directory := "/tmp", use_gpu := true }
    platform := "Linux", version := "1.0" }

/-- A fully valid set of Custom-provider answers with model name
"foo". -/
def customFoo : ConfigAI.CustomAnswers :=
  { api_base_url := "http://localhost:8080", api_key := "abcdefghijkl",
    model_name := "foo", max_tokens := "8192",
    supports_functions := false, temperature := "0.7",
    temperature_val := some (7 / 10) }

/-- A Custom-provider record with model name "foo", as assembled by the
Builder. -/
def cfgFoo : Config :=
  { llm_provider := ConfigAI.configure_llm_provider "Custom Provider" customFoo
    experiment := { experiment_type := "custom", num_ideas := "10",
                    parallel_processes := "3", improvement_enabled := false }
    system := { temp_directory := "/tmp", use_gpu := true }
    platform := "Linux", version := "1.0" }

/-- A record with `parallel_processes = "3"` and `use_gpu = true`. -/
def cfgGpu3 : Config :=
  { llm_provider := { provider_type := "OpenAI Compatible",
                      settings := [("model_name", .str "nanoGPT")] }
    experiment := { experiment_type := "nanoGPT", num_ideas := "50",
                    parallel_processes := "3", improvement_enabled := true }
    system := { temp_directory := "/tmp", use_gpu := true }
    platform := "Linux", version := "1.0" }

/-- A record with `parallel_processes = "3"` and `use_gpu = false`. -/
def cfgNoGpu : Config :=
  { llm_provider := { provider_type := "OpenAI Compatible",
                      settings := [("model_name", .str "nanoGPT")] }
    experiment := { experiment_type := "nanoGPT", num_ideas := "50",
                    parallel_processes := "3", improvement_enabled := true }
    system := { temp_directory := "/tmp", use_gpu := false }
    platform := "Linux", version := "1.0" }

/-- The overlay `setup_environment` derives from `cfgGpu3` off Windows. -/
def ovGpu3 : EnvOverlay :=
  { custom_api_key := none, custom_api_base_url := none,
    temp := some "/tmp", tmp := none,
    cuda_visible_devices := some "0,1,2" }

/-- The overlay `setup_environment` derives from `cfgNoGpu` off Windows. -/
def ovNoGpu : EnvOverlay :=
  { custom_api_key := none, custom_api_base_url := none,
    temp := some "/tmp", tmp := none,
    cuda_visible_devices := none }

/-- A host where only the override path `/alt/config.json` holds a
record; the default `CONFIG_PATH` holds none. -/
def wAltOnly : World :=
  { isWindows := false, onPath := ["python", "git"],
    files := [("/alt/config.json", cfgNano)] }

/-- A host where only the default `CONFIG_PATH` holds a record. -/
def wDefaultOnly : World :=
  { isWindows := false, onPath := ["python", "git"],
    files := [(CONFIG_PATH, cfgNano)] }

/-- A host with both executables and no files at all. -/
def wEmpty : World :=
  { isWindows := false, onPath := ["python", "git"], files := [] }

/-- A host on which `git` does not resolve. -/
def wNoGit : World :=
  { isWindows := false, onPath := ["python"], files := [] }

/-- A Custom-provider answer set in which every prompt validator accepts
although `max_tokens` is the digit string "0". -/
def cexMaxTokens : ConfigAI.CustomAnswers :=
  { api_base_url := "http://localhost:8080", api_key := "abcdefghijkl",
    model_name := "m", max_tokens := "0", supports_functions := false,
    temperature := "0.7", temperature_val := some (7 / 10) }

/-- Builder inputs interrupted at the provider section. -/
def interruptedInputs : ConfigAI.BuilderInputs :=
  { use_existing := none, llm_provider := none, experiment := none,
    system := none }

/-! ## Auxiliary lemmas -/

/-- Characters accepted by `str.isdigit` are not whitespace. -/
theorem digit_not_whitespace (c : Char) (h : c.isDigit = true) :
    c.isWhitespace = false := by
  by_contra hw
  rw [Bool.not_eq_false] at hw
  simp only [Char.isWhitespace, Bool.or_eq_true, decide_eq_true_eq] at hw
  rcases hw with ((h1 | h1) | h1) | h1 <;> subst h1 <;> exact absurd h (by decide)

/-- Dropping leading whitespace from an all-digit character list is the
identity. -/
theorem dropWhile_whitespace_of_digits (l : List Char)
    (h : ∀ c ∈ l, c.isDigit = true) :
    l.dropWhile Char.isWhitespace = l := by
  cases l with
  | nil => rfl
  | cons a l =>
    rw [List.dropWhile_cons, digit_not_whitespace a (h a (by simp))]
    simp

/-- `pyStrip` is the identity on all-digit strings. -/
theorem pyStrip_of_digits (s : String) (h : s.data.all Char.isDigit = true) :
    pyStrip s = s := by
  rw [List.all_eq_true] at h
  unfold pyStrip
  rw [dropWhile_whitespace_of_digits _ h,
      dropWhile_whitespace_of_digits _ (fun c hc => h c (List.mem_reverse.mp hc)),
      List.reverse_reverse]

/-- Stripping never lengthens a string. -/
theorem pyStrip_length_le (s : String) : (pyStrip s).length ≤ s.length := by
  show (((s.data.dropWhile Char.isWhitespace).reverse.dropWhile
          Char.isWhitespace).reverse).length ≤ s.data.length
  rw [List.length_reverse]
  refine le_trans (List.Sublist.length_le (List.dropWhile_sublist _)) ?_
  rw [List.length_reverse]
  exact List.Sublist.length_le (List.dropWhile_sublist _)

/-- On a digit string, `pyInt?` returns the (nonnegative) denoted
integer. -/
theorem pyInt?_of_digits (s : String) (h : pyIsdigit s = true) :
    ∃ n : Nat, pyInt? s = some (n : Int) := by
  have hparts : s ≠ "" ∧ s.data.all Char.isDigit = true := by
    simpa [pyIsdigit, Bool.and_eq_true] using h
  have hstrip : pyStrip s = s := pyStrip_of_digits s hparts.2
  have htonat : pyToNat? s = some (pyDigitsVal s.data) := by
    rw [pyToNat?, if_pos h]
  unfold pyInt?
  rw [hstrip]
  split
  · next heq =>
    exact absurd (by simpa using congrArg String.mk heq) hparts.1
  · next c rest heq =>
    have hcmem : c ∈ s.data := by rw [heq]; simp
    have hcdig : c.isDigit = true := (List.all_eq_true.mp hparts.2) c hcmem
    have h1 : ¬ c = '-' := fun hc => absurd hcdig (by subst hc; decide)
    have h2 : ¬ c = '+' := fun hc => absurd hcdig (by subst hc; decide)
    rw [if_neg h1, if_neg h2, htonat]
    exact ⟨_, rfl⟩

/-! ## Claim theorems -/

/-- C1: for every Configuration Record (whose settings carry a
`model_name` string), `build_launch_command` returns exactly
`[python, launch_scientist.py, --model, M, --experiment, experiment_type,
--num-ideas, num_ideas, --parallel, parallel_processes]` with
`--improvement` appended iff `improvement_enabled`, where `M` is
`custom/` ++ model name for a Custom provider and the bare model name
otherwise. -/
theorem build_launch_command_spec (config : Config) (m : String)
    (h : config.llm_provider.settings.lookup "model_name" = some (.str m)) :
    build_launch_command config =
      some (["python", "launch_scientist.py",
             "--model",
             (if config.llm_provider.provider_type = "Custom Provider"
              then "custom/" ++ m else m),
             "--experiment", config.experiment.experiment_type,
             "--num-ideas", config.experiment.num_ideas,
             "--parallel", config.experiment.parallel_processes] ++
            (if config.experiment.improvement_enabled
             then ["--improvement"] else [])) := by
  unfold build_launch_command
  rw [h]
  by_cases hc : config.llm_provider.provider_type = "Custom Provider" <;>
    cases hi : config.experiment.improvement_enabled <;>
      simp [hc, hi, JsonVal.pyStr, JsonVal.asEnvString]

/-- Witness for C1: the spec's two concrete examples, via
`build_launch_command_spec`. -/
theorem build_launch_command_spec_witness :
    build_launch_command cfgNano =
      some ["python", "launch_scientist.py", "--model", "nanoGPT",
            "--experiment", "nanoGPT", "--num-ideas", "50",
            "--parallel", "0", "--improvement"] ∧
    build_launch_command cfgFoo =
      some ["python", "launch_scientist.py", "--model", "custom/foo",
            "--experiment", "custom", "--num-ideas", "10",
            "--parallel", "3"] := by
  constructor
  · have h := build_launch_command_spec cfgNano "nanoGPT" rfl
    simpa [cfgNano] using h
  · have h := build_launch_command_spec cfgFoo "foo" rfl
    simpa [cfgFoo, ConfigAI.configure_llm_provider, ConfigAI.custom_settings]
      using h

/-- C2: the derived environment sets `CUDA_VISIBLE_DEVICES` to the
comma-joined list `0,1,...,n-1` exactly when the parsed
`parallel_processes` is positive and `use_gpu` holds, and leaves it unset
otherwise. -/
theorem setup_environment_cuda (iw : Bool) (config : Config) (n : Int)
    (ov : EnvOverlay)
    (hn : pyInt? config.experiment.parallel_processes = some n)
    (hov : setup_environment iw config = some ov) :
    (0 < n ∧ config.system.use_gpu = true →
      ov.cuda_visible_devices = some (cudaDeviceList n.toNat)) ∧
    (¬ (0 < n ∧ config.system.use_gpu = true) →
      ov.cuda_visible_devices = none) := by
  unfold setup_environment at hov
  rw [Option.bind_eq_some] at hov
  obtain ⟨custom, hcst, hov⟩ := hov
  rw [Option.bind_eq_some] at hov
  obtain ⟨n', hn', hov⟩ := hov
  rw [hn] at hn'
  injection hn' with hn'
  subst hn'
  injection hov with hov
  subst hov
  constructor
  · intro hpos
    simp [hpos.1, hpos.2]
  · intro hneg
    simp only [if_neg hneg]

/-- Witness for C2: three parallel processes with the GPU enabled yield
`0,1,2`; with the GPU disabled the variable stays unset. -/
theorem setup_environment_cuda_witness :
    ovGpu3.cuda_visible_devices = some "0,1,2" ∧
    ovNoGpu.cuda_visible_devices = none := by
  constructor
  · have h := (setup_environment_cuda false cfgGpu3 3 ovGpu3 (by decide)
      (by decide)).1 ⟨by norm_num, rfl⟩
    simpa [cudaDeviceList] using h
  · exact (setup_environment_cuda false cfgNoGpu 3 ovNoGpu (by decide)
      (by decide)).2 (by simp [cfgNoGpu])

/-- C3 counterexample: the claim says the GPU probe returns "1" on every
non-Windows host, but `get_default_cuda_devices` returns "0" there (and
likewise "0", not "1", on a Windows host where `nvidia-smi` succeeds, and
"", not "0", where it fails). -/
theorem get_default_cuda_devices_claim_false :
    get_default_cuda_devices false true = "0" ∧
    ¬ get_default_cuda_devices false true = "1" ∧
    ¬ get_default_cuda_devices true true = "1" ∧
    ¬ get_default_cuda_devices true false = "0" := by
  refine ⟨rfl, by decide, by decide, by decide⟩

/-- C3 amended: the probe returns "0" (the index of the first GPU) on a
Windows host where `nvidia-smi` succeeds, "" (no devices) on a Windows
host where it fails, and "0" on every non-Windows host. -/
theorem get_default_cuda_devices_amended :
    (∀ ok, get_default_cuda_devices false ok = "0") ∧
    get_default_cuda_devices true true = "0" ∧
    get_default_cuda_devices true false = "" := by
  exact ⟨fun ok => by cases ok <;> rfl, rfl, rfl⟩

/-- C4 (code bug): the parsed `--config` override never reaches
`load_configuration`.  With a record only at the override path the run
still exits "configuration not found"; with a record only at the default
path the run behaves identically whatever `--config` says, and launches
from the default file even when `--config` points elsewhere. -/
theorem config_override_ignored :
    (main wAltOnly { config := "/alt/config.json", debug := false }).1 =
      Outcome.exitConfigMissing ∧
    main wDefaultOnly { config := "/alt/config.json", debug := false } =
      main wDefaultOnly { config := CONFIG_PATH, debug := false } ∧
    (main wDefaultOnly
      { config := "/alt/config.json", debug := false }).1.invokesSubprocess
      = true := by
  refine ⟨by decide, rfl, by decide⟩

/-- C5 counterexample: the Builder's validation gate accepts the answer
set `cexMaxTokens`, whose `max_tokens` digit string "0" denotes 0 — a
record violating `max_tokens > 0` is produced by the gate. -/
theorem custom_gate_accepts_zero_max_tokens :
    ConfigAI.custom_answers_valid cexMaxTokens = true ∧
    pyInt? cexMaxTokens.max_tokens = some 0 ∧
    ¬ (0 : Int) > 0 := by
  refine ⟨?_, by decide, by decide⟩
  have hA : ConfigAI.validate_api_base_url cexMaxTokens.api_base_url = true := by
    decide
  have hB : ConfigAI.validate_api_key cexMaxTokens.api_key = true := by decide
  have hC : ConfigAI.validate_model_name cexMaxTokens.model_name = true := by
    decide
  have hD : ConfigAI.validate_max_tokens cexMaxTokens.max_tokens = true := by
    decide
  have hE : ConfigAI.validate_temperature cexMaxTokens.temperature_val =
      .ok true := by
    have hq1 : (0 : ℚ) ≤ 7 / 10 := by norm_num
    have hq2 : (7 / 10 : ℚ) ≤ 1 := by norm_num
    simp [ConfigAI.validate_temperature, cexMaxTokens, hq1, hq2]
  unfold ConfigAI.custom_answers_valid
  rw [hA, hB, hC, hD, hE]
  rfl

/-- C5 amended: every answer set passing the gate has a non-empty
api_base_url and model_name, an api_key longer than 10 characters, a
max_tokens digit string denoting a nonnegative (possibly zero) integer,
and a temperature in [0, 1].  (The original claim's `max_tokens > 0`
fails: the gate only checks `isdigit`, which "0" passes.) -/
theorem custom_gate_invariants (a : ConfigAI.CustomAnswers)
    (h : ConfigAI.custom_answers_valid a = true) :
    a.api_base_url ≠ "" ∧ a.model_name ≠ "" ∧ a.api_key.length > 10 ∧
    (∃ n : Nat, pyInt? a.max_tokens = some (n : Int)) ∧
    (∃ q : ℚ, a.temperature_val = some q ∧ 0 ≤ q ∧ q ≤ 1) := by
  unfold ConfigAI.custom_answers_valid at h
  simp only [Bool.and_eq_true] at h
  obtain ⟨⟨⟨⟨hurl, hkey⟩, hname⟩, htok⟩, htemp⟩ := h
  refine ⟨?_, ?_, ?_, ?_, ?_⟩
  · intro he
    unfold ConfigAI.validate_api_base_url at hurl
    rw [he] at hurl
    exact absurd hurl (by decide)
  · intro he
    unfold ConfigAI.validate_model_name at hname
    rw [he] at hname
    exact absurd hname (by decide)
  · unfold ConfigAI.validate_api_key at hkey
    simp only [Bool.and_eq_true, decide_eq_true_eq] at hkey
    exact lt_of_lt_of_le hkey.2 (pyStrip_length_le _)
  · unfold ConfigAI.validate_max_tokens at htok
    exact pyInt?_of_digits _ htok
  · cases hx : a.temperature_val with
    | none =>
      rw [hx] at htemp
      exact absurd htemp (by decide)
    | some q =>
      rw [hx] at htemp
      simp only [ConfigAI.validate_temperature, Bool.and_eq_true,
                 decide_eq_true_eq] at htemp
      exact ⟨q, rfl, htemp.1, htemp.2⟩

/-- The valid answer set `customFoo` passes the gate. -/
theorem customFoo_valid : ConfigAI.custom_answers_valid customFoo = true := by
  have hA : ConfigAI.validate_api_base_url customFoo.api_base_url = true := by
    decide
  have hB : ConfigAI.validate_api_key customFoo.api_key = true := by decide
  have hC : ConfigAI.validate_model_name customFoo.model_name = true := by decide
  have hD : ConfigAI.validate_max_tokens customFoo.max_tokens = true := by decide
  have hE : ConfigAI.validate_temperature customFoo.temperature_val =
      .ok true := by
    have hq1 : (0 : ℚ) ≤ 7 / 10 := by norm_num
    have hq2 : (7 / 10 : ℚ) ≤ 1 := by norm_num
    simp [ConfigAI.validate_temperature, customFoo, hq1, hq2]
  unfold ConfigAI.custom_answers_valid
  rw [hA, hB, hC, hD, hE]
  rfl

/-- Witness for C5 (amended): the invariants hold of the accepted answer
set `customFoo`. -/
theorem custom_gate_invariants_witness :
    customFoo.api_base_url ≠ "" ∧ customFoo.model_name ≠ "" ∧
    customFoo.api_key.length > 10 ∧
    (∃ n : Nat, pyInt? customFoo.max_tokens = some (n : Int)) ∧
    (∃ q : ℚ, customFoo.temperature_val = some q ∧ 0 ≤ q ∧ q ≤ 1) :=
  custom_gate_invariants customFoo customFoo_valid

/-- C6: with no record at `CONFIG_PATH`, the launcher exits non-zero
without invoking any subprocess; when the prerequisite executables
resolve, the exit carries the actionable missing-configuration
diagnostic. -/
theorem no_config_no_subprocess (w : World) (a : Args)
    (h : w.files.lookup CONFIG_PATH = none) :
    (main w a).1.invokesSubprocess = false ∧
    (main w a).1.exitedNonZeroBeforeLaunch = true ∧
    Event.ranSubprocess ∉ (main w a).2 ∧
    (validate_environment w = none →
      (main w a).1.errorMessage = some
        "Configuration not found. Please run config_ai_scientist.py first.") := by
  unfold main
  cases hv : validate_environment w with
  | none =>
    simp [load_configuration, h, Outcome.invokesSubprocess,
          Outcome.exitedNonZeroBeforeLaunch, Outcome.errorMessage]
  | some c =>
    simp [Outcome.invokesSubprocess, Outcome.exitedNonZeroBeforeLaunch,
          Outcome.errorMessage]

/-- Witness for C6: on a host with no persisted record, the launcher
exits non-zero, reports the actionable error, and runs no subprocess. -/
theorem no_config_no_subprocess_witness :
    (main wEmpty {}).1.invokesSubprocess = false ∧
    (main wEmpty {}).1.exitedNonZeroBeforeLaunch = true ∧
    Event.ranSubprocess ∉ (main wEmpty {}).2 ∧
    (validate_environment wEmpty = none →
      (main wEmpty {}).1.errorMessage = some
        "Configuration not found. Please run config_ai_scientist.py first.") :=
  no_config_no_subprocess wEmpty {} rfl

/-- A run of `validate_environment` that reports a command reports one
that does not resolve on the PATH. -/
theorem validate_environment_missing (w : World) (c : String)
    (h : validate_environment w = some c) : resolves w c = false := by
  unfold validate_environment at h
  by_cases h1 : resolves w "python" = true
  · rw [if_neg (by simp [h1])] at h
    by_cases h2 : resolves w "git" = true
    · rw [if_neg (by simp [h2])] at h
      exact absurd h (by simp)
    · rw [if_pos (by simpa using h2)] at h
      injection h with h'
      subst h'
      simpa using h2
  · rw [if_pos (by simpa using h1)] at h
    injection h with h'
    subst h'
    simpa using h1

/-- C7: every launcher run performs the prerequisite check first; when a
required executable is missing, the run reports that executable and
terminates with the record never loaded and the environment never
mutated. -/
theorem prereq_check_before_load (w : World) (a : Args) :
    (main w a).2.head? = some Event.checkedPrereqs ∧
    (∀ c, validate_environment w = some c →
      resolves w c = false ∧
      main w a = (Outcome.exitMissingCmd c, [Event.checkedPrereqs]) ∧
      (Outcome.exitMissingCmd c).errorMessage =
        some ("Error: " ++ c ++ " not found in PATH") ∧
      Event.loadedConfig ∉ (main w a).2 ∧
      Event.setEnvVars ∉ (main w a).2) := by
  constructor
  · unfold main
    repeat' split
    all_goals rfl
  · intro c hc
    refine ⟨validate_environment_missing w c hc, ?_⟩
    unfold main
    simp [hc, Outcome.errorMessage]

/-- Witness for C7: with `git` missing, the launcher exits right after
the prerequisite check, reporting `git`. -/
theorem prereq_check_before_load_witness :
    (main wNoGit {}).2.head? = some Event.checkedPrereqs ∧
    resolves wNoGit "git" = false ∧
    main wNoGit {} = (Outcome.exitMissingCmd "git", [Event.checkedPrereqs]) ∧
    Event.loadedConfig ∉ (main wNoGit {}).2 := by
  have h := prereq_check_before_load wNoGit {}
  have h2 := h.2 "git" (by decide)
  exact ⟨h.1, h2.1, h2.2.1, h2.2.2.2.1⟩

/-- C8: an interrupt at any reached prompt aborts the Builder with exit
status 1 and zero configuration-file writes; the file is written only by
a run that completed every prompt, and then exactly once. -/
theorem builder_interrupt_no_write (e : Option Config) (p : String)
    (i : ConfigAI.BuilderInputs) :
    (ConfigAI.hitsInterrupt e i = true →
      ConfigAI.builder_main e p i = (.exitInterrupted, 0) ∧
      (ConfigAI.builder_main e p i).1.exitCode = 1) ∧
    ((ConfigAI.builder_main e p i).2 ≠ 0 →
      ConfigAI.hitsInterrupt e i = false ∧
      ∃ c, ConfigAI.builder_main e p i = (.saved c, 1)) := by
  obtain ⟨ue, pr, ex, sy⟩ := i
  cases e <;> rcases ue with _ | b <;> try cases b
  all_goals
    rcases pr with _ | pr <;> rcases ex with _ | ex <;> rcases sy with _ | sy <;>
      simp [ConfigAI.builder_main, ConfigAI.builder_main.builder_collect,
            ConfigAI.hitsInterrupt, ConfigAI.BuilderOutcome.exitCode]

/-- Witness for C8: a first run (no existing record) interrupted during
the provider prompts exits with status 1 and writes nothing. -/
theorem builder_interrupt_no_write_witness :
    ConfigAI.builder_main none "Linux" interruptedInputs =
      (.exitInterrupted, 0) ∧
    (ConfigAI.builder_main none "Linux" interruptedInputs).1.exitCode = 1 :=
  (builder_interrupt_no_write none "Linux" interruptedInputs).1 rfl

/-- C9: the temperature prompt never lets the validator's exception
escape: every input is either accepted (exactly the numeric inputs in
[0, 1]) or answered with a re-prompt; in particular a non-numeric input
(whose `float` raises) re-prompts. -/
theorem temperature_prompt_total (x : Option ℚ) :
    (ConfigAI.temperature_prompt_step x = .accepted ∨
     ConfigAI.temperature_prompt_step x = .reprompt) ∧
    (ConfigAI.temperature_prompt_step x = .accepted ↔
      ∃ q, x = some q ∧ 0 ≤ q ∧ q ≤ 1) ∧
    ConfigAI.temperature_prompt_step none = .reprompt := by
  refine ⟨?_, ?_, rfl⟩
  · cases h : ConfigAI.temperature_prompt_step x
    · exact Or.inl rfl
    · exact Or.inr rfl
  · cases x with
    | none =>
      simp [ConfigAI.temperature_prompt_step, ConfigAI.validate_temperature]
    | some q =>
      by_cases h : 0 ≤ q ∧ q ≤ 1
      · simp [ConfigAI.temperature_prompt_step, ConfigAI.validate_temperature,
              h.1, h.2]
      · rw [Classical.not_and_iff_or_not_not] at h
        rcases h with h | h <;>
          simp [ConfigAI.temperature_prompt_step,
                ConfigAI.validate_temperature, h]

/-- C10: for a Builder-produced record whose provider is OpenAI
Compatible or Anthropic, the settings group is the empty mapping (no
`model_name` key), so `build_launch_command` raises the missing-key
error; the command is derived only for Custom-provider records, for
which it always succeeds. -/
theorem non_custom_settings_empty (pt : String)
    (custom : ConfigAI.CustomAnswers)
    (h : pt = "OpenAI Compatible" ∨ pt = "Anthropic")
    (exp : ExperimentConfig) (sys : SystemConfig) (pl v : String) :
    (ConfigAI.configure_llm_provider pt custom).settings = [] ∧
    build_launch_command
      { llm_provider := ConfigAI.configure_llm_provider pt custom,
        experiment := exp, system := sys, platform := pl, version := v } =
      none ∧
    (build_launch_command
      { llm_provider :=
          ConfigAI.configure_llm_provider "Custom Provider" custom,
        experiment := exp, system := sys, platform := pl,
        version := v }).isSome = true := by
  have hne : pt ≠ "Custom Provider" := by
    rcases h with h | h <;> subst h <;> decide
  refine ⟨?_, ?_, ?_⟩
  · simp [ConfigAI.configure_llm_provider, hne]
  · simp [build_launch_command, ConfigAI.configure_llm_provider, hne]
  · simp [build_launch_command, ConfigAI.configure_llm_provider,
          ConfigAI.custom_settings, List.lookup, JsonVal.pyStr]

/-- Witness for C10: an Anthropic-provider record from the Builder has
empty settings and no derivable command; the same answers under the
Custom provider yield one. -/
theorem non_custom_settings_empty_witness :
    (ConfigAI.configure_llm_provider "Anthropic" customFoo).settings = [] ∧
    build_launch_command
      { llm_provider := ConfigAI.configure_llm_provider "Anthropic" customFoo,
        experiment := cfgFoo.experiment, system := cfgFoo.system,
        platform := "Linux", version := "1.0" } = none ∧
    (build_launch_command
      { llm_provider :=
          ConfigAI.configure_llm_provider "Custom Provider" customFoo,
        experiment := cfgFoo.experiment, system := cfgFoo.system,
        platform := "Linux", version := "1.0" }).isSome = true :=
  non_custom_settings_empty "Anthropic" customFoo (Or.inr rfl)
    cfgFoo.experiment cfgFoo.system "Linux" "1.0"

/-- Witness for C9: a non-numeric input (whose `float` raises) re-prompts;
the in-range input 1 is accepted. -/
theorem temperature_prompt_total_witness :
    ConfigAI.temperature_prompt_step none = .reprompt ∧
    (ConfigAI.temperature_prompt_step (some 1) = .accepted ↔
      ∃ q, (some 1 : Option ℚ) = some q ∧ 0 ≤ q ∧ q ≤ 1) :=
  ⟨(temperature_prompt_total none).2.2, (temperature_prompt_total (some 1)).2.1⟩
